import Mathlib

/-!
# Verification of the Delta Green command/context core

Shallow embedding of `src/DAS-Delta-Green-Context-Script.js`
(`DeltaGreenContextManager`) and `src/DAS-Delta-Green-Input-Script.js`
(`DeltaGreenInputProcessor`).

Modelling conventions:
* JS numbers appearing in the tracked state are integers in every reachable
  configuration the spec discusses, so they are embedded as `Int`.
* `new Date().toISOString()` timestamps are drawn from an ambient clock; we
  carry a `now : Nat` field in the state for them.  `Date.now()`/`Math.random()`
  based fresh identifiers are embedded as a deterministic counter (`gen`); the
  random cosmetic `callsign` and the static `joinedCampaign` timestamp string
  are elided: no tracked property reads them.
* JS truthiness: `undefined`/absent is `Option.none`; the empty string and the
  number `0` are falsy when the code tests them with `!x` or `x || d`.
* JS `Map` is an insertion-ordered association list; `Map.set` overwrites in
  place when the key exists, appends otherwise.
-/

namespace DeltaGreen

/-- `Math.max(lo, Math.min(hi, x))` as used throughout the source. -/
def clampInt (lo hi x : Int) : Int := max lo (min hi x)

/-- JS `v || d` for an optional number: absent and `0` are falsy. -/
def jsOrInt (v : Option Int) (d : Int) : Int :=
  match v with
  | none => d
  | some x => if x = 0 then d else x

/-- JS `v || d` for an optional string: absent and `""` are falsy. -/
def jsOrStr (v : Option String) (d : String) : String :=
  match v with
  | none => d
  | some s => if s = "" then d else s

/-- JS `!x` on an optional string argument: true for `undefined` and `""`. -/
def strFalsy (v : Option String) : Bool :=
  match v with
  | none => true
  | some s => s = ""

/-- JS `String.prototype.trim`: strip whitespace from both ends. -/
def jsTrim (s : String) : String :=
  String.mk (((s.toList.dropWhile Char.isWhitespace).reverse.dropWhile
    Char.isWhitespace).reverse)

/-- JS `String.prototype.toUpperCase` (the source only ever feeds it ASCII). -/
def jsToUpper (s : String) : String :=
  String.mk (s.toList.map Char.toUpper)

/-- Insertion-ordered association list standing for a JS `Map`. -/
abbrev JsMap (α : Type) := List (String × α)

/-- `Map.prototype.set`: overwrite in place if the key exists, else append. -/
def mapSet {α : Type} (m : JsMap α) (k : String) (v : α) : JsMap α :=
  if m.any (fun p => p.1 = k) then
    m.map (fun p => if p.1 = k then (k, v) else p)
  else
    m ++ [(k, v)]

/-- `Map.prototype.get` (`none` for a missing key = JS `undefined`). -/
def mapGet {α : Type} (m : JsMap α) (k : String) : Option α :=
  (m.find? (fun p => p.1 = k)).map Prod.snd

/-! ## Context manager: data model (`DAS-Delta-Green-Context-Script.js`) -/

/-- One entry of `tracker.history` (`modifySanity`, lines 172–178; the
timestamp string and the constant empty `reason` are elided). -/
structure SanityEntry where
  delta : Int
  previous : Int
  current : Int
deriving Repr, DecidableEq

/-- One entry of `tracker.breakpoints`: the `type` field, either
`"critical"` or `"complete_break"` (lines 181–186). -/
structure Breakpoint where
  type : String
deriving Repr, DecidableEq

/-- The per-agent sanity tracker created by `registerAgent` (lines 115–120). -/
structure SanityTracker where
  current : Int
  max : Int
  history : List SanityEntry
  breakpoints : List Breakpoint
deriving Repr, DecidableEq

/-- The tracked fields of an agent record (`registerAgent`, lines 96–112). -/
structure Agent where
  id : String
  name : String
  role : String
  sanity : Int
  maxSanity : Int
  status : String
  notes : String
  stressLevel : Int
deriving Repr, DecidableEq

/-- A team record (`createTeam`, lines 202–214; member references and the
mission history are elided — no claim reads them). -/
structure Team where
  id : String
  name : String
  objective : String
  morale : Int
  cohesion : Int
  casualtyCount : Int
  status : String
  tactics : String
deriving Repr, DecidableEq

/-- A threat record (`createThreatAssessment`, lines 332–348; list-valued
cosmetic fields are elided). -/
structure Threat where
  id : String
  name : String
  type : String
  threatLevel : Int
  classification : String
  status : String
  containment_status : String
deriving Repr, DecidableEq

/-- The mutable stores of `DeltaGreenContextManager` that the claims read. -/
structure CtxState where
  agents : JsMap Agent
  sanityTracker : JsMap SanityTracker
  teams : JsMap Team
  threats : JsMap Threat
deriving Repr, DecidableEq

/-- The empty stores set up by the constructor (lines 29–49). -/
def ctxInit : CtxState := { agents := [], sanityTracker := [], teams := [], threats := [] }

/-! ## `modifySanity` (lines 161–190) -/

/-- Core of `modifySanity` on one tracker/agent pair (lines 169–189).
`tracker.current < tracker.max * 0.25` is the float comparison
`current < max / 4`; over integers this is exactly `4 * current < max`
(`0.25` is a dyadic rational, so the float product is exact in range). -/
def modifySanityCore (tracker : SanityTracker) (agent : Agent) (delta : Int) :
    SanityTracker × Agent :=
  let previousSanity := tracker.current
  let newCurrent := max 0 (min tracker.max (tracker.current + delta))
  let tracker1 : SanityTracker :=
    { tracker with
      current := newCurrent
      history := tracker.history ++
        [{ delta := delta, previous := previousSanity, current := newCurrent }] }
  if tracker1.current = 0 then
    ({ tracker1 with breakpoints := tracker1.breakpoints ++ [{ type := "complete_break" }] },
     { agent with status := "incapacitated", sanity := tracker1.current })
  else if 4 * tracker1.current < tracker1.max then
    ({ tracker1 with breakpoints := tracker1.breakpoints ++ [{ type := "critical" }] },
     { agent with sanity := tracker1.current })
  else
    (tracker1, { agent with sanity := tracker1.current })

/-- `modifySanity(agentId, delta)` on the manager state: throws (`Except.error`)
when the tracker or the agent is missing (lines 162–167), else updates both
stores and returns the tracker (lines 169–189). -/
def modifySanity (st : CtxState) (agentId : String) (delta : Int) :
    Except String (CtxState × SanityTracker) :=
  match mapGet st.sanityTracker agentId, mapGet st.agents agentId with
  | some tracker, some agent =>
    let (tracker', agent') := modifySanityCore tracker agent delta
    .ok ({ st with
            sanityTracker := mapSet st.sanityTracker agentId tracker'
            agents := mapSet st.agents agentId agent' },
         tracker')
  | _, _ => .error ("Unable to modify sanity for agent " ++ agentId)

/-! ## `registerAgent` (lines 95–123) -/

/-- Caller-supplied registration record (every field optional, §6 of the
data model; fields no claim reads are elided). -/
structure AgentInput where
  id : Option String := none
  name : Option String := none
  role : Option String := none
  sanity : Option Int := none
  maxSanity : Option Int := none
  status : Option String := none
  notes : Option String := none
deriving Repr, DecidableEq

/-- `registerAgent(agent)`: builds the defaults-filled record and **sets** both
the agent entry and a fresh tracker with empty `history`/`breakpoints`
(lines 96–120) — also when the id already exists. -/
def registerAgent (st : CtxState) (a : AgentInput) : CtxState × Agent :=
  let autoId := "AGENT-" ++ toString (st.agents.length + 1)
  let agentData : Agent :=
    { id := jsOrStr a.id autoId
      name := jsOrStr a.name "Unknown Agent"
      role := jsOrStr a.role "Operative"
      sanity := jsOrInt a.sanity 60
      maxSanity := jsOrInt a.maxSanity 60
      status := jsOrStr a.status "active"
      notes := jsOrStr a.notes ""
      stressLevel := 0 }
  let st' : CtxState :=
    { st with
      agents := mapSet st.agents agentData.id agentData
      sanityTracker := mapSet st.sanityTracker agentData.id
        { current := agentData.sanity
          max := agentData.maxSanity
          history := []
          breakpoints := [] } }
  (st', agentData)

/-! ## `updateAgentStatus` (lines 131–153) -/

/-- One key/value pair of the `statusUpdate` object, in the shape the handler
dispatches on (lines 139–149). `other` stands for any further own-property
key: the code copies it onto the agent when the agent already has that
property, which touches neither tracker nor any list. -/
inductive StatusUpdate where
  | sanity (delta : Int)
  | status (s : String)
  | stressLevel (v : Int)
  | notes (s : String)
deriving Repr, DecidableEq

/-- Apply one `statusUpdate` key (body of the `forEach`, lines 139–149). -/
def applyStatusUpdate (st : CtxState) (agentId : String) (u : StatusUpdate) :
    Except String CtxState :=
  match u with
  | .sanity delta => (modifySanity st agentId delta).map Prod.fst
  | .status s =>
    match mapGet st.agents agentId with
    | some agent => .ok { st with agents := mapSet st.agents agentId ({ agent with status := s }) }
    | none => .ok st
  | .stressLevel v =>
    match mapGet st.agents agentId with
    | some agent =>
      let agent' : Agent := { agent with stressLevel := max 0 (min 100 v) }
      .ok { st with agents := mapSet st.agents agentId agent' }
    | none => .ok st
  | .notes s =>
    match mapGet st.agents agentId with
    | some agent => .ok { st with agents := mapSet st.agents agentId ({ agent with notes := s }) }
    | none => .ok st

/-- `updateAgentStatus(agentId, statusUpdate)`: throws when the agent is
missing (lines 134–136), else folds the update keys in object order
(lines 139–149). -/
def updateAgentStatus (st : CtxState) (agentId : String) (upd : List StatusUpdate) :
    Except String CtxState :=
  match mapGet st.agents agentId with
  | none => .error ("Agent " ++ agentId ++ " not found in registry")
  | some _ => upd.foldlM (fun s u => applyStatusUpdate s agentId u) st

/-! ## `manageTeamDynamics` (lines 226–262) -/

/-- The `dynamics` update object.  `casualty` and `tactics` are guarded by JS
truthiness in the source (`if (dynamics.casualty)`), so a supplied `0` /
empty string behaves like an absent field. -/
structure Dynamics where
  morale : Option Int := none
  cohesion : Option Int := none
  casualty : Option Int := none
  tactics : Option String := none
deriving Repr, DecidableEq

/-- The object returned by `manageTeamDynamics` (lines 255–261). -/
structure TeamDynResult where
  teamId : String
  morale : Int
  cohesion : Int
  casualties : Int
  status : String
deriving Repr, DecidableEq

/-- Body of `manageTeamDynamics` once the team is found (lines 233–261). -/
def manageTeamDynamicsCore (team : Team) (d : Dynamics) : TeamDynResult × Team :=
  let team : Team := match d.morale with
    | some m => { team with morale := max 0 (min 100 m) }
    | none => team
  let team : Team := match d.cohesion with
    | some c => { team with cohesion := max 0 (min 100 c) }
    | none => team
  let team : Team := match d.casualty with
    | some c => if c = 0 then team else { team with casualtyCount := team.casualtyCount + c }
    | none => team
  let team : Team := match d.tactics with
    | some t => if t = "" then team else { team with tactics := t }
    | none => team
  let team : Team :=
    if team.casualtyCount > 0 then
      let moralePenalty : Int := min 30 (team.casualtyCount * 5)
      { team with morale := max 0 (team.morale - moralePenalty) }
    else team
  ({ teamId := team.id
     morale := team.morale
     cohesion := team.cohesion
     casualties := team.casualtyCount
     status := if team.morale > 50 then "operational" else "compromised" },
   team)

/-- `manageTeamDynamics(teamId, dynamics)`: throws when the team is missing
(lines 229–231), else updates the store. -/
def manageTeamDynamics (st : CtxState) (teamId : String) (d : Dynamics) :
    Except String (CtxState × TeamDynResult) :=
  match mapGet st.teams teamId with
  | none => .error ("Team " ++ teamId ++ " not found")
  | some team =>
    let (result, team') := manageTeamDynamicsCore team d
    .ok ({ st with teams := mapSet st.teams teamId team' }, result)

/-! ## `createThreatAssessment` (lines 331–352) -/

/-- Caller-supplied threat data (fields the claims read). -/
structure ThreatInput where
  name : Option String := none
  type : Option String := none
  threat_level : Option Int := none
  classification : Option String := none
  containment_status : Option String := none
deriving Repr, DecidableEq

/-- `createThreatAssessment(threat)`: the level is
`Math.max(1, Math.min(10, threat.threat_level || 5))` (line 336) — the
default `5` replaces any falsy value **before** the clamp. -/
def createThreatAssessment (st : CtxState) (t : ThreatInput) : CtxState × Threat :=
  let threatData : Threat :=
    { id := "THREAT-" ++ toString (st.threats.length + 1)
      name := jsOrStr t.name "Unknown Threat"
      type := jsOrStr t.type "anomalous"
      threatLevel := max 1 (min 10 (jsOrInt t.threat_level 5))
      classification := jsOrStr t.classification "DELTA GREEN"
      status := "active"
      containment_status := jsOrStr t.containment_status "uncontained" }
  ({ st with threats := mapSet st.threats threatData.id threatData }, threatData)

/-! ## Input processor: data model (`DAS-Delta-Green-Input-Script.js`) -/

/-- The global threat level.  The field is a string in the source; the values
reachable from the constructor's `'NORMAL'` through `calculateThreatLevel`,
`escalateThreatLevel`, `checkThreatLevel` and `handleAlert` are exactly these
three strings, so we embed it as a closed enumeration. -/
inductive ThreatLevel where
  | NORMAL
  | ELEVATED
  | CRITICAL
deriving Repr, DecidableEq

/-- `calculateThreatLevel(severity)` (lines 365–373):
`levels[severity?.toUpperCase()] || 'NORMAL'`. -/
def calculateThreatLevel (severity : Option String) : ThreatLevel :=
  match severity with
  | none => .NORMAL
  | some s =>
    let u := jsToUpper s
    if u = "CRITICAL" then .CRITICAL
    else if u = "HIGH" then .ELEVATED
    else if u = "MEDIUM" then .ELEVATED
    else .NORMAL

/-- `escalateThreatLevel()` (lines 378–386): one step up, `CRITICAL` maps to
itself. -/
def escalateThreatLevel : ThreatLevel → ThreatLevel
  | .NORMAL => .ELEVATED
  | .ELEVATED => .CRITICAL
  | .CRITICAL => .CRITICAL

/-- `String.prototype.startsWith` on character lists. -/
def startsWithList : List Char → List Char → Bool
  | _, [] => true
  | [], _ :: _ => false
  | h :: hs, n :: ns => h == n && startsWithList hs ns

/-- `String.prototype.includes` on character lists. -/
def containsList : List Char → List Char → Bool
  | [], needle => needle.isEmpty
  | h :: t, needle => startsWithList (h :: t) needle || containsList t needle

/-- `hay.includes(needle)`. -/
def jsIncludes (hay needle : String) : Bool :=
  containsList hay.toList needle.toList

/-- `checkThreatLevel(threat)` (lines 391–396): a keyword hit forces
`ELEVATED`, otherwise the level is left alone. -/
def checkThreatLevel (threat : String) (current : ThreatLevel) : ThreatLevel :=
  let threatKeywords := ["ANOMALY", "ENTITY", "HOSTILE", "UNKNOWN"]
  if threatKeywords.any (fun keyword => jsIncludes (jsToUpper threat) keyword) then
    .ELEVATED
  else current

/-! ### Tokenizer (`tokenizeInput`, lines 86–97)

The source repeatedly `exec`s the regex `[^\s"]+|"([^"]*)"` and pushes
`match[1] || match[0]`.  Operationally the engine scans left to right:
whitespace that starts no match is skipped; a run of non-space non-quote
characters is the first alternative; at a `"` the second alternative matches
up to the next `"` (capturing the inside) and fails when no closing quote
exists, in which case the scan resumes one character later.  Because the
empty capture of `""` is falsy, `match[1] || match[0]` pushes the **whole**
match `""` (quotes included) for an empty quoted run. -/

/-- One regex-scan pass of `tokenizeInput` over the characters.  Every step
consumes at least one character, so the scan is driven by a fuel counter that
drops by one per step; `fuel ≥ input.length` makes the `0` case unreachable
(`tokenizeInput` always supplies `input.length`). -/
def tokenizeCore (fuel : Nat) (input : List Char) : List (List Char) :=
  match fuel, input with
  | 0, _ => []
  | _ + 1, [] => []
  | fuel + 1, c :: rest =>
    if c.isWhitespace then tokenizeCore fuel rest
    else if c = '"' then
      match rest.dropWhile (fun ch => ch ≠ '"') with
      | '"' :: after =>
        let content := rest.takeWhile (fun ch => ch ≠ '"')
        (if content = [] then ['"', '"'] else content) :: tokenizeCore fuel after
      | _ => tokenizeCore fuel rest
    else
      (c :: rest.takeWhile (fun ch => !ch.isWhitespace && ch ≠ '"')) ::
        tokenizeCore fuel (rest.dropWhile (fun ch => !ch.isWhitespace && ch ≠ '"'))

/-- `tokenizeInput(input)` (lines 86–97). -/
def tokenizeInput (input : String) : List String :=
  (tokenizeCore input.toList.length input.toList).map (fun l => String.mk l)

/-! ### Records built by the handlers (deterministic fields; ISO timestamp
strings elided, `generateId` results drawn from the `gen` counter) -/

/-- `handleInvestigate` record (lines 107–114; empty `findings` elided). -/
structure Investigation where
  id : String
  target : String
  details : String
  status : String
deriving Repr, DecidableEq

/-- `handleResearch` record (lines 198–205; null `results` elided). -/
structure Research where
  id : String
  subject : String
  parameters : String
  status : String
deriving Repr, DecidableEq

/-- A value stored in `this.agentStates` — only `handleInvestigate` and
`handleResearch` write to that map. -/
inductive StoredRec where
  | investigation (i : Investigation)
  | research (r : Research)
deriving Repr, DecidableEq

/-- One `this.actionLog` entry (`logAction`, lines 402–407). -/
structure LogEntry where
  timestamp : Nat
  command : String
  args : List String
  status : String
deriving Repr, DecidableEq

/-- `handleEngage` record (lines 131–137). -/
structure Engagement where
  agentId : String
  threat : String
  modifiers : String
  outcome : String
deriving Repr, DecidableEq

/-- `handleRetreat` record (lines 154–159). -/
structure RetreatOrder where
  agentId : String
  reason : String
  status : String
deriving Repr, DecidableEq

/-- `handleContain` record (lines 174–181). -/
structure Containment where
  id : String
  objectType : String
  severity : String
  measures : String
  status : String
deriving Repr, DecidableEq

/-- `handleStatus` report (lines 218–230). -/
structure StatusReport where
  timestamp : Nat
  threatLevel : ThreatLevel
  activeOperations : Nat
  recentActions : List LogEntry
  agentStatus : Option StoredRec
deriving Repr, DecidableEq

/-- `handleDebrief` record (lines 243–249). -/
structure Debrief where
  agentId : String
  observations : String
  mentalpStatus : String
  recordId : String
deriving Repr, DecidableEq

/-- `handleReport` record (lines 260–266). -/
structure Report where
  type : String
  details : String
  classification : String
  reportId : String
deriving Repr, DecidableEq

/-- `handleAlert` record (lines 281–287). -/
structure Alert where
  id : String
  threatType : String
  location : String
  status : String
deriving Repr, DecidableEq

/-- `handleEscalate` record (lines 300–305). -/
structure Escalation where
  previousLevel : ThreatLevel
  newLevel : ThreatLevel
  reason : String
deriving Repr, DecidableEq

/-- `handleSanitize` record (lines 320–326). -/
structure Sanitization where
  id : String
  target : String
  methods : String
  status : String
deriving Repr, DecidableEq

/-- `handleConfig` record (lines 351–355). -/
structure ConfigRecord where
  setting : String
  value : String
deriving Repr, DecidableEq

/-- The `data` payload of a response: one constructor per handler payload. -/
inductive RData where
  | investigation (i : Investigation)
  | engagement (e : Engagement)
  | retreat (r : RetreatOrder)
  | containment (c : Containment)
  | research (r : Research)
  | statusReport (s : StatusReport)
  | debrief (d : Debrief)
  | report (r : Report)
  | alert (a : Alert)
  | escalation (e : Escalation)
  | sanitization (s : Sanitization)
  | help (text : String)
  | config (c : ConfigRecord)
deriving Repr, DecidableEq

/-- The response envelope built by `formatResponse` (lines 425–432). -/
structure Response where
  status : String
  message : String
  data : Option RData
  timestamp : Nat
deriving Repr, DecidableEq

/-- `formatResponse(status, message, data = null)`. -/
def formatResponse (now : Nat) (status message : String) (data : Option RData) : Response :=
  { status := status, message := message, data := data, timestamp := now }

/-- The mutable state of `DeltaGreenInputProcessor` (constructor, lines
14–20), plus the ambient clock `now` and the fresh-id counter `gen` standing
for `Date.now()`/`Math.random()`. -/
structure ProcState where
  agentStates : JsMap StoredRec
  actionLog : List LogEntry
  threatLevel : ThreatLevel
  gen : Nat
  now : Nat
deriving Repr, DecidableEq

/-- The constructor's initial state. -/
def initState : ProcState :=
  { agentStates := [], actionLog := [], threatLevel := .NORMAL, gen := 0, now := 0 }

/-- `generateId()` (lines 418–420), drawn from the fresh-id counter. -/
def generateId (st : ProcState) : String := "DG-" ++ toString st.gen

/-- `array.join(' ')` over the rest-parameter arguments. -/
def joinArgs (args : List String) : String := String.intercalate " " args

/-! ### Command handlers -/

/-- `handleInvestigate(target, ...details)` (lines 102–121). -/
def handleInvestigate (args : List String) (st : ProcState) : Response × ProcState :=
  let target := args.get? 0
  if strFalsy target then
    (formatResponse st.now "ERROR" "INVESTIGATE requires a target" none, st)
  else
    let investigation : Investigation :=
      { id := generateId st
        target := target.getD ""
        details := joinArgs (args.drop 1)
        status := "ACTIVE" }
    (formatResponse st.now "SUCCESS" ("Investigation initiated: " ++ investigation.id)
       (some (.investigation investigation)),
     { st with
        agentStates := mapSet st.agentStates investigation.id (.investigation investigation)
        gen := st.gen + 1 })

/-- `handleEngage(agentId, threat, ...modifiers)` (lines 126–144). -/
def handleEngage (args : List String) (st : ProcState) : Response × ProcState :=
  let agentId := args.get? 0
  let threat := args.get? 1
  if strFalsy agentId || strFalsy threat then
    (formatResponse st.now "ERROR" "ENGAGE requires agent ID and threat designation" none, st)
  else
    let engagementLog : Engagement :=
      { agentId := agentId.getD ""
        threat := threat.getD ""
        modifiers := joinArgs (args.drop 2)
        outcome := "PENDING" }
    (formatResponse st.now "SUCCESS" "Engagement directive processed"
       (some (.engagement engagementLog)),
     { st with threatLevel := checkThreatLevel (threat.getD "") st.threatLevel })

/-- `handleRetreat(agentId, reason)` (lines 149–164). -/
def handleRetreat (args : List String) (st : ProcState) : Response × ProcState :=
  let agentId := args.get? 0
  if strFalsy agentId then
    (formatResponse st.now "ERROR" "RETREAT requires agent ID" none, st)
  else
    let retreatOrder : RetreatOrder :=
      { agentId := agentId.getD ""
        reason := jsOrStr (args.get? 1) "Tactical withdrawal"
        status := "EXECUTED" }
    (formatResponse st.now "SUCCESS" "Retreat order processed"
       (some (.retreat retreatOrder)), st)

/-- `handleContain(objectType, severity, ...containmentMeasures)`
(lines 169–188): only `objectType` is checked; the threat level is recomputed
from the raw `severity` (possibly absent). -/
def handleContain (args : List String) (st : ProcState) : Response × ProcState :=
  let objectType := args.get? 0
  let severity := args.get? 1
  if strFalsy objectType then
    (formatResponse st.now "ERROR" "CONTAIN requires object type and severity level" none, st)
  else
    let containment : Containment :=
      { id := generateId st
        objectType := objectType.getD ""
        severity := jsOrStr severity "UNKNOWN"
        measures := joinArgs (args.drop 2)
        status := "INITIATED" }
    (formatResponse st.now "SUCCESS" "Containment protocol activated"
       (some (.containment containment)),
     { st with threatLevel := calculateThreatLevel severity, gen := st.gen + 1 })

/-- `handleResearch(subject, ...parameters)` (lines 193–212). -/
def handleResearch (args : List String) (st : ProcState) : Response × ProcState :=
  let subject := args.get? 0
  if strFalsy subject then
    (formatResponse st.now "ERROR" "RESEARCH requires a subject" none, st)
  else
    let research : Research :=
      { id := generateId st
        subject := subject.getD ""
        parameters := joinArgs (args.drop 1)
        status := "IN_PROGRESS" }
    (formatResponse st.now "SUCCESS" "Research directive established"
       (some (.research research)),
     { st with
        agentStates := mapSet st.agentStates research.id (.research research)
        gen := st.gen + 1 })

/-- `handleStatus(agentId)` (lines 217–233). -/
def handleStatus (args : List String) (st : ProcState) : Response × ProcState :=
  let agentId := args.get? 0
  let base : StatusReport :=
    { timestamp := st.now
      threatLevel := st.threatLevel
      activeOperations := st.agentStates.length
      recentActions := st.actionLog.drop (st.actionLog.length - 5)
      agentStatus := none }
  let statusReport : StatusReport :=
    if strFalsy agentId then base
    else
      match mapGet st.agentStates (agentId.getD "") with
      | some agent => { base with agentStatus := some agent }
      | none => base
  (formatResponse st.now "SUCCESS" "Status report generated"
     (some (.statusReport statusReport)), st)

/-- `handleDebrief(agentId, ...observations)` (lines 238–254). -/
def handleDebrief (args : List String) (st : ProcState) : Response × ProcState :=
  let agentId := args.get? 0
  if strFalsy agentId then
    (formatResponse st.now "ERROR" "DEBRIEF requires agent ID" none, st)
  else
    let debrief : Debrief :=
      { agentId := agentId.getD ""
        observations := joinArgs (args.drop 1)
        mentalpStatus := "PENDING_EVALUATION"
        recordId := generateId st }
    (formatResponse st.now "SUCCESS" "Debrief recorded" (some (.debrief debrief)),
     { st with gen := st.gen + 1 })

/-- `handleReport(reportType, ...details)` (lines 259–271): no required
argument. -/
def handleReport (args : List String) (st : ProcState) : Response × ProcState :=
  let report : Report :=
    { type := jsOrStr (args.get? 0) "GENERAL"
      details := joinArgs (args.drop 1)
      classification := "DELTA_GREEN"
      reportId := generateId st }
  (formatResponse st.now "SUCCESS" "Report generated" (some (.report report)),
   { st with gen := st.gen + 1 })

/-- `handleAlert(threatType, location)` (lines 276–294): forces `ELEVATED`. -/
def handleAlert (args : List String) (st : ProcState) : Response × ProcState :=
  let threatType := args.get? 0
  if strFalsy threatType then
    (formatResponse st.now "ERROR" "ALERT requires threat type" none, st)
  else
    let alert : Alert :=
      { id := generateId st
        threatType := threatType.getD ""
        location := jsOrStr (args.get? 1) "UNKNOWN"
        status := "ISSUED" }
    (formatResponse st.now "SUCCESS" "Alert issued to network" (some (.alert alert)),
     { st with threatLevel := .ELEVATED, gen := st.gen + 1 })

/-- `handleEscalate(reason)` (lines 299–310): no required argument. -/
def handleEscalate (args : List String) (st : ProcState) : Response × ProcState :=
  let newLevel := escalateThreatLevel st.threatLevel
  let escalation : Escalation :=
    { previousLevel := st.threatLevel
      newLevel := newLevel
      reason := jsOrStr (args.get? 0) "Unspecified" }
  (formatResponse st.now "SUCCESS" "Threat level escalated" (some (.escalation escalation)),
   { st with threatLevel := newLevel })

/-- `handleSanitize(target, ...methods)` (lines 315–331). -/
def handleSanitize (args : List String) (st : ProcState) : Response × ProcState :=
  let target := args.get? 0
  if strFalsy target then
    (formatResponse st.now "ERROR" "SANITIZE requires a target" none, st)
  else
    let sanitization : Sanitization :=
      { id := generateId st
        target := target.getD ""
        methods := joinArgs (args.drop 1)
        status := "PROCESSING" }
    (formatResponse st.now "SUCCESS" "Sanitization operation initiated"
       (some (.sanitization sanitization)),
     { st with gen := st.gen + 1 })

/-- `generateHelpText(command)` (lines 437–459). -/
def generateHelpText (command : Option String) : String :=
  let table : List (String × String) :=
    [("INVESTIGATE", "INVESTIGATE <target> [details...] - Initiate investigation directive"),
     ("ENGAGE", "ENGAGE <agentId> <threat> [modifiers...] - Execute direct engagement"),
     ("RETREAT", "RETREAT <agentId> [reason] - Order tactical withdrawal"),
     ("CONTAIN", "CONTAIN <objectType> <severity> [measures...] - Activate containment"),
     ("RESEARCH", "RESEARCH <subject> [parameters...] - Conduct research operation"),
     ("STATUS", "STATUS [agentId] - Get operational status"),
     ("DEBRIEF", "DEBRIEF <agentId> [observations...] - Record agent debrief"),
     ("REPORT", "REPORT [type] [details...] - Generate operational report"),
     ("ALERT", "ALERT <threatType> [location] - Issue threat alert"),
     ("ESCALATE", "ESCALATE [reason] - Escalate threat level"),
     ("SANITIZE", "SANITIZE <target> [methods...] - Initiate sanitization"),
     ("HELP", "HELP [command] - Display help information"),
     ("CONFIG", "CONFIG <setting> [value...] - Manage configuration")]
  match command with
  | some c =>
    if c = "" then String.intercalate "\n" (table.map Prod.snd)
    else
      match mapGet table (jsToUpper c) with
      | some line => line
      | none => "Command not found"
  | none => String.intercalate "\n" (table.map Prod.snd)

/-- `handleHelp(command)` (lines 336–341): no required argument. -/
def handleHelp (args : List String) (st : ProcState) : Response × ProcState :=
  (formatResponse st.now "SUCCESS" "Help information" (some (.help (generateHelpText (args.get? 0)))),
   st)

/-- `handleConfig(setting, ...value)` (lines 346–360). -/
def handleConfig (args : List String) (st : ProcState) : Response × ProcState :=
  let setting := args.get? 0
  if strFalsy setting then
    (formatResponse st.now "ERROR" "CONFIG requires a setting name" none, st)
  else
    let config : ConfigRecord :=
      { setting := setting.getD ""
        value := joinArgs (args.drop 1) }
    (formatResponse st.now "SUCCESS" "Configuration updated" (some (.config config)), st)

/-! ### Dispatch (`processCommand`, lines 58–81, and `logAction`, 401–413) -/

/-- A command handler. -/
abbrev Handler := List String → ProcState → Response × ProcState

/-- The registry after `initializeCommands` (lines 25–46); keys are stored
uppercased and never change afterwards. -/
def lookupCommand (c : String) : Option Handler :=
  if c = "INVESTIGATE" then some handleInvestigate
  else if c = "ENGAGE" then some handleEngage
  else if c = "RETREAT" then some handleRetreat
  else if c = "CONTAIN" then some handleContain
  else if c = "RESEARCH" then some handleResearch
  else if c = "STATUS" then some handleStatus
  else if c = "DEBRIEF" then some handleDebrief
  else if c = "REPORT" then some handleReport
  else if c = "ALERT" then some handleAlert
  else if c = "ESCALATE" then some handleEscalate
  else if c = "SANITIZE" then some handleSanitize
  else if c = "HELP" then some handleHelp
  else if c = "CONFIG" then some handleConfig
  else none

/-- `logAction(command, args, result)` (lines 401–413): append one entry, then
`slice(-100)` when the length exceeds 100. -/
def logAction (st : ProcState) (command : String) (args : List String) (result : Response) :
    ProcState :=
  let log := st.actionLog ++
    [{ timestamp := st.now, command := command, args := args, status := result.status }]
  { st with actionLog := if log.length > 100 then log.drop (log.length - 100) else log }

/-- The `try`/`catch` around the handler call (lines 73–80), with the
handler's behaviour abstracted as `outcome`: a normal return is logged and
passed through; a thrown error (carrying whatever state the handler left
behind) bypasses `logAction` and is converted to the
`Command execution failed` envelope. -/
def dispatchOutcome (st : ProcState) (command : String) (args : List String)
    (outcome : Except (String × ProcState) (Response × ProcState)) : Response × ProcState :=
  match outcome with
  | .ok (result, st') => (result, logAction st' command args result)
  | .error (msg, stAtThrow) =>
    (formatResponse st.now "ERROR" ("Command execution failed: " ++ msg) none, stAtThrow)

/-- Registry lookup plus guarded handler invocation (lines 69–80) for an
already-tokenized command name and argument list.  Every registered handler
is a total function (none of the thirteen throws), so the outcome fed to the
dispatch boundary is always `.ok`. -/
def dispatch (command : String) (args : List String) (st : ProcState) :
    Response × ProcState :=
  match lookupCommand command with
  | none => (formatResponse st.now "ERROR" ("Unknown command: " ++ command) none, st)
  | some handler => dispatchOutcome st command args (.ok (handler args st))

/-- `processCommand(input)` (lines 58–81).  When the trimmed input is
non-empty but tokenizes to no token at all (only the lone-`"` input does
this), line 66 reads `tokens[0].toUpperCase()` on `undefined` **outside** the
`try` block: that TypeError escapes `processCommand`, embedded as
`Except.error`. -/
def processCommand (input : String) (st : ProcState) :
    Except String (Response × ProcState) :=
  let trimmedInput := jsTrim input
  if trimmedInput = "" then
    .ok (formatResponse st.now "ERROR" "No command provided" none, st)
  else
    match tokenizeInput trimmedInput with
    | [] => .error "TypeError: Cannot read properties of undefined"
    | t0 :: rest => .ok (dispatch (jsToUpper t0) rest st)

/-- The processor state after a dispatch that returns normally (identity on a
crashing input). -/
def stateAfter (input : String) (st : ProcState) : ProcState :=
  match processCommand input st with
  | .ok (_, st') => st'
  | .error _ => st

/-- The input processor holds no reference to the context manager: a command
dispatch reads and writes only the processor's own stores, so the combined
system threads the context state through unchanged. -/
def processCommandSys (input : String) (sys : ProcState × CtxState) :
    Except String (Response × (ProcState × CtxState)) :=
  (processCommand input sys.1).map (fun p => (p.1, (p.2, sys.2)))

/-- The context-manager state after `modifySanity` when it returns normally
(identity when it throws). -/
def modifySanityState (st : CtxState) (agentId : String) (delta : Int) : CtxState :=
  match modifySanity st agentId delta with
  | .ok (st', _) => st'
  | .error _ => st

/-- `st'` extends `st` tracker-wise: every sanity tracker present in `st` is
still present, its `history` and `breakpoints` unchanged up to appended
entries — the "never shrink, never rewritten" reading of the spec. -/
def trackerExtends (st st' : CtxState) : Prop :=
  ∀ aid t, mapGet st.sanityTracker aid = some t →
    ∃ t', mapGet st'.sanityTracker aid = some t' ∧
      (∃ es, t'.history = t.history ++ es) ∧
      (∃ bs, t'.breakpoints = t.breakpoints ++ bs)

/-- Driver for the spec's 105-command audit-log scenario: dispatch `REPORT`
(always successful) with the ambient clock at `i`. -/
def reportStep (st : ProcState) (i : Nat) : ProcState :=
  stateAfter "REPORT" { st with now := i }

/-- 105 successfully completed commands from a fresh processor. -/
def run105 : ProcState := (List.range 105).foldl reportStep initState

/-! ## Helper lemmas about the JS `Map` embedding -/

theorem find?_map_replace {α : Type} (m : JsMap α) (k : String) (v : α) :
    (m.map (fun p => if p.1 = k then (k, v) else p)).find? (fun p => p.1 = k) =
      if m.any (fun p => p.1 = k) then some (k, v) else none := by
  induction m with
  | nil => simp
  | cons p rest ih =>
    by_cases hp : p.1 = k
    · simp [List.map_cons, List.find?, List.any_cons, hp]
    · have hd : (decide (p.1 = k)) = false := decide_eq_false hp
      simp only [List.map_cons, List.find?, if_neg hp, hd, List.any_cons, Bool.false_or]
      exact ih

theorem find?_append_fresh {α : Type} (m : JsMap α) (k : String) (v : α)
    (h : m.any (fun p => p.1 = k) = false) :
    (m ++ [(k, v)]).find? (fun p => p.1 = k) = some (k, v) := by
  induction m with
  | nil => simp [List.find?]
  | cons p rest ih =>
    simp only [List.any_cons, Bool.or_eq_false_iff] at h
    simp only [List.cons_append, List.find?]
    rw [h.1]
    exact ih h.2

theorem mapGet_mapSet_self {α : Type} (m : JsMap α) (k : String) (v : α) :
    mapGet (mapSet m k v) k = some v := by
  unfold mapSet
  cases hb : m.any (fun p => p.1 = k) with
  | true =>
    rw [if_pos rfl]
    unfold mapGet
    rw [find?_map_replace, if_pos hb]
    rfl
  | false =>
    rw [if_neg Bool.false_ne_true]
    unfold mapGet
    rw [find?_append_fresh m k v hb]
    rfl

theorem find?_map_replace_ne {α : Type} (m : JsMap α) (k k' : String) (v : α)
    (hne : k' ≠ k) :
    (m.map (fun p => if p.1 = k then (k, v) else p)).find? (fun p => p.1 = k') =
      m.find? (fun p => p.1 = k') := by
  induction m with
  | nil => simp
  | cons p rest ih =>
    by_cases hp : p.1 = k
    · have h1 : (decide ((k, v).1 = k')) = false := decide_eq_false (fun hc => hne hc.symm)
      have h2 : (decide (p.1 = k')) = false := by
        refine decide_eq_false (fun hc => hne ?_)
        rw [← hc, hp]
      simp only [List.map_cons, List.find?, if_pos hp, h1, h2, ih]
    · simp only [List.map_cons, List.find?, if_neg hp, ih]

theorem mapGet_mapSet_ne {α : Type} (m : JsMap α) (k k' : String) (v : α)
    (hne : k' ≠ k) :
    mapGet (mapSet m k v) k' = mapGet m k' := by
  unfold mapSet
  cases hb : m.any (fun p => p.1 = k) with
  | true =>
    rw [if_pos rfl]
    unfold mapGet
    rw [find?_map_replace_ne m k k' v hne]
  | false =>
    rw [if_neg Bool.false_ne_true]
    unfold mapGet
    rw [List.find?_append]
    have hone : List.find? (fun p => decide (p.1 = k')) [(k, v)] = none := by
      have : (decide ((k, v).1 = k')) = false := decide_eq_false (fun hc => hne hc.symm)
      simp [List.find?, this]
    rw [hone]
    cases List.find? (fun p => decide (p.1 = k')) m <;> rfl

/-! ## C1: `modifySanity` clamps, records history, and fires breakpoints -/

theorem modifySanityCore_props (t : SanityTracker) (a : Agent) (delta : Int) :
    (modifySanityCore t a delta).1.current = clampInt 0 t.max (t.current + delta) ∧
    (modifySanityCore t a delta).1.max = t.max ∧
    (modifySanityCore t a delta).1.history =
      t.history ++ [{ delta := delta, previous := t.current,
                      current := clampInt 0 t.max (t.current + delta) }] ∧
    ((modifySanityCore t a delta).1.current = 0 →
      (modifySanityCore t a delta).1.breakpoints =
        t.breakpoints ++ [{ type := "complete_break" }] ∧
      (modifySanityCore t a delta).2.status = "incapacitated") ∧
    ((modifySanityCore t a delta).1.current ≠ 0 →
      4 * (modifySanityCore t a delta).1.current < t.max →
      (modifySanityCore t a delta).1.breakpoints = t.breakpoints ++ [{ type := "critical" }] ∧
      (modifySanityCore t a delta).2.status = a.status) ∧
    ((modifySanityCore t a delta).1.current ≠ 0 →
      ¬ 4 * (modifySanityCore t a delta).1.current < t.max →
      (modifySanityCore t a delta).1.breakpoints = t.breakpoints ∧
      (modifySanityCore t a delta).2.status = a.status) := by
  unfold modifySanityCore clampInt
  dsimp only
  split_ifs with h1 h2 <;> simp_all

/-- **C1.** For every registered agent (tracker and agent record present, the
sanity maximum non-negative as every in-model registration makes it) and every
integer delta, `modifySanity` returns normally, stores a tracker whose
`current` is `clamp(current+delta, 0, max)`, appends exactly one history
entry (also when `delta = 0`); when the new current is `0` it appends exactly
one `complete_break` breakpoint and sets the agent's status to
`incapacitated`; otherwise when the new current is strictly below a quarter
of the maximum (`4*current < max`, the integer form of `current < 0.25*max`)
it appends exactly one `critical` breakpoint and keeps the status; otherwise
it appends no breakpoint.  The result satisfies `0 ≤ current ≤ max`. -/
theorem modifySanity_clamps_and_records (st : CtxState) (agentId : String) (delta : Int)
    (t : SanityTracker) (a : Agent)
    (ht : mapGet st.sanityTracker agentId = some t)
    (ha : mapGet st.agents agentId = some a)
    (hmax : 0 ≤ t.max) :
    ∃ st',
      modifySanity st agentId delta = .ok (st', (modifySanityCore t a delta).1) ∧
      mapGet st'.sanityTracker agentId = some (modifySanityCore t a delta).1 ∧
      mapGet st'.agents agentId = some (modifySanityCore t a delta).2 ∧
      (modifySanityCore t a delta).1.current = clampInt 0 t.max (t.current + delta) ∧
      (modifySanityCore t a delta).1.history =
        t.history ++ [{ delta := delta, previous := t.current,
                        current := clampInt 0 t.max (t.current + delta) }] ∧
      ((modifySanityCore t a delta).1.current = 0 →
        (modifySanityCore t a delta).1.breakpoints =
          t.breakpoints ++ [{ type := "complete_break" }] ∧
        (modifySanityCore t a delta).2.status = "incapacitated") ∧
      ((modifySanityCore t a delta).1.current ≠ 0 →
        4 * (modifySanityCore t a delta).1.current < t.max →
        (modifySanityCore t a delta).1.breakpoints = t.breakpoints ++ [{ type := "critical" }] ∧
        (modifySanityCore t a delta).2.status = a.status) ∧
      ((modifySanityCore t a delta).1.current ≠ 0 →
        ¬ 4 * (modifySanityCore t a delta).1.current < t.max →
        (modifySanityCore t a delta).1.breakpoints = t.breakpoints ∧
        (modifySanityCore t a delta).2.status = a.status) ∧
      0 ≤ (modifySanityCore t a delta).1.current ∧
      (modifySanityCore t a delta).1.current ≤ t.max := by
  obtain ⟨hcur, hmax', hhist, hzero, hcrit, hnone⟩ := modifySanityCore_props t a delta
  refine ⟨{ st with
              sanityTracker := mapSet st.sanityTracker agentId (modifySanityCore t a delta).1
              agents := mapSet st.agents agentId (modifySanityCore t a delta).2 },
          ?_, ?_, ?_, hcur, hhist, hzero, hcrit, hnone, ?_, ?_⟩
  · unfold modifySanity
    rw [ht, ha]
  · exact mapGet_mapSet_self _ _ _
  · exact mapGet_mapSet_self _ _ _
  · rw [hcur]; unfold clampInt; omega
  · rw [hcur]; unfold clampInt; omega

/-- Witness for C1 at the spec's own scenario: agent at 70/70, delta −75. -/
theorem modifySanity_clamps_and_records_witness :
    ∃ st', modifySanity
        ((registerAgent ctxInit { id := some "A1", sanity := some 70, maxSanity := some 70 }).1)
        "A1" (-75) =
      .ok (st', (modifySanityCore { current := 70, max := 70, history := [], breakpoints := [] }
        { id := "A1", name := "Unknown Agent", role := "Operative", sanity := 70,
          maxSanity := 70, status := "active", notes := "", stressLevel := 0 } (-75)).1) ∧
      mapGet st'.sanityTracker "A1" =
        some (modifySanityCore { current := 70, max := 70, history := [], breakpoints := [] }
          { id := "A1", name := "Unknown Agent", role := "Operative", sanity := 70,
            maxSanity := 70, status := "active", notes := "", stressLevel := 0 } (-75)).1 := by
  obtain ⟨st', h1, h2, h3, hrest⟩ := modifySanity_clamps_and_records
    ((registerAgent ctxInit { id := some "A1", sanity := some 70, maxSanity := some 70 }).1)
    "A1" (-75)
    { current := 70, max := 70, history := [], breakpoints := [] }
    { id := "A1", name := "Unknown Agent", role := "Operative", sanity := 70,
      maxSanity := 70, status := "active", notes := "", stressLevel := 0 }
    (by decide) (by decide) (by decide)
  exact ⟨st', h1, h2⟩

/-! ## C10: `createThreatAssessment` defaults before clamping -/

/-- **C10.** The stored `threatLevel` always lies in `[1,10]`; a falsy
supplied `threat_level` (absent — JS `undefined`/`null` — or `0`) is replaced
by the default `5` *before* the clamp, so `0` is **not** clamped up to `1`;
every truthy (non-zero) supplied value `v` yields `clamp(v, 1, 10)`. -/
theorem createThreatAssessment_clamp_default (st : CtxState) (t : ThreatInput) :
    (1 ≤ (createThreatAssessment st t).2.threatLevel ∧
      (createThreatAssessment st t).2.threatLevel ≤ 10) ∧
    ((t.threat_level = none ∨ t.threat_level = some 0) →
      (createThreatAssessment st t).2.threatLevel = 5) ∧
    (∀ v : Int, t.threat_level = some v → v ≠ 0 →
      (createThreatAssessment st t).2.threatLevel = clampInt 1 10 v) := by
  have hlvl : (createThreatAssessment st t).2.threatLevel =
      max 1 (min 10 (jsOrInt t.threat_level 5)) := rfl
  refine ⟨⟨?_, ?_⟩, ?_, ?_⟩
  · rw [hlvl]; exact le_max_left _ _
  · rw [hlvl]
    exact max_le (by norm_num) (min_le_left _ _)
  · rintro (h | h) <;> rw [hlvl, h] <;> decide
  · intro v hv hv0
    rw [hlvl, hv]
    simp only [jsOrInt]
    rw [if_neg hv0]
    rfl

/-- Witness for C10: a supplied `threat_level` of `0` yields `5`, not `1`. -/
theorem createThreatAssessment_clamp_default_witness :
    (createThreatAssessment ctxInit { threat_level := some 0 }).2.threatLevel = 5 :=
  (createThreatAssessment_clamp_default ctxInit { threat_level := some 0 }).2.1 (Or.inr rfl)

/-! ## C7: team dynamics — clamping, casualty-derived morale penalty, status -/

theorem mtd_casualtyCount (team : Team) (d : Dynamics) :
    (manageTeamDynamicsCore team d).2.casualtyCount =
      team.casualtyCount + (match d.casualty with
        | some c => if c = 0 then 0 else c
        | none => 0) := by
  obtain ⟨dm, dc, dcas, dtac⟩ := d
  rcases dm with _ | m <;> rcases dc with _ | c <;> rcases dcas with _ | cas <;>
    rcases dtac with _ | tac <;>
    simp only [manageTeamDynamicsCore] <;> split_ifs <;>
    first
      | rfl
      | omega
      | (dsimp only; omega)
      | (dsimp only at *; omega)
      | (dsimp only; rfl)

theorem mtd_cohesion (team : Team) (d : Dynamics) :
    (manageTeamDynamicsCore team d).2.cohesion =
      (match d.cohesion with
        | some c => clampInt 0 100 c
        | none => team.cohesion) := by
  obtain ⟨dm, dc, dcas, dtac⟩ := d
  rcases dm with _ | m <;> rcases dc with _ | c <;> rcases dcas with _ | cas <;>
    rcases dtac with _ | tac <;>
    simp only [manageTeamDynamicsCore, clampInt] <;> split_ifs <;>
    first
      | rfl
      | omega
      | (dsimp only; omega)
      | (dsimp only at *; omega)
      | (dsimp only; rfl)

theorem mtd_morale (team : Team) (d : Dynamics) :
    (manageTeamDynamicsCore team d).2.morale =
      (let m1 : Int := match d.morale with
        | some m => clampInt 0 100 m
        | none => team.morale
       let cc : Int := team.casualtyCount + (match d.casualty with
        | some c => if c = 0 then 0 else c
        | none => 0)
       if cc > 0 then max 0 (m1 - min 30 (cc * 5)) else m1) := by
  obtain ⟨dm, dc, dcas, dtac⟩ := d
  rcases dm with _ | m <;> rcases dc with _ | c <;> rcases dcas with _ | cas <;>
    rcases dtac with _ | tac <;>
    simp only [manageTeamDynamicsCore, clampInt] <;> split_ifs <;>
    first
      | rfl
      | omega
      | (dsimp only; omega)
      | (dsimp only at *; omega)
      | (dsimp only; rfl)

theorem mtd_result_morale (team : Team) (d : Dynamics) :
    (manageTeamDynamicsCore team d).1.morale = (manageTeamDynamicsCore team d).2.morale := rfl

theorem mtd_result_casualties (team : Team) (d : Dynamics) :
    (manageTeamDynamicsCore team d).1.casualties =
      (manageTeamDynamicsCore team d).2.casualtyCount := rfl

theorem mtd_result_status (team : Team) (d : Dynamics) :
    (manageTeamDynamicsCore team d).1.status =
      (if (manageTeamDynamicsCore team d).2.morale > 50 then "operational"
       else "compromised") := rfl

/-- **C7.** One `manageTeamDynamics` application: supplied morale/cohesion are
clamped to `[0,100]` first; then, whenever the casualty count is positive
*after* the (truthy) casualty delta is added, the penalty
`min(30, casualtyCount*5)` — recomputed from the cumulative count — is
subtracted from morale, clamped at `0`; the derived status is `operational`
exactly when the resulting morale exceeds `50`.  The final conjunct is the
spec's two-call scenario: casualties `0 → 1 → 2`, the second call applying
the recomputed penalty `min(30, 2*5) = 10`. -/
theorem manageTeamDynamics_penalty_and_status (team : Team) (d : Dynamics) :
    ((manageTeamDynamicsCore team d).2.casualtyCount =
        team.casualtyCount + (match d.casualty with
          | some c => if c = 0 then 0 else c
          | none => 0) ∧
      (manageTeamDynamicsCore team d).2.cohesion =
        (match d.cohesion with
          | some c => clampInt 0 100 c
          | none => team.cohesion) ∧
      (manageTeamDynamicsCore team d).2.morale =
        (let m1 : Int := match d.morale with
          | some m => clampInt 0 100 m
          | none => team.morale
         let cc : Int := team.casualtyCount + (match d.casualty with
          | some c => if c = 0 then 0 else c
          | none => 0)
         if cc > 0 then max 0 (m1 - min 30 (cc * 5)) else m1) ∧
      (manageTeamDynamicsCore team d).1.morale = (manageTeamDynamicsCore team d).2.morale ∧
      (manageTeamDynamicsCore team d).1.casualties =
        (manageTeamDynamicsCore team d).2.casualtyCount ∧
      (manageTeamDynamicsCore team d).1.status =
        (if (manageTeamDynamicsCore team d).2.morale > 50 then "operational"
         else "compromised")) ∧
    (team.casualtyCount = 0 →
      (manageTeamDynamicsCore team { casualty := some 1 }).2.morale =
          max 0 (team.morale - 5) ∧
        (manageTeamDynamicsCore team { casualty := some 1 }).2.casualtyCount = 1 ∧
        (manageTeamDynamicsCore
            (manageTeamDynamicsCore team { casualty := some 1 }).2
            { casualty := some 1 }).2.morale =
          max 0 (max 0 (team.morale - 5) - 10) ∧
        (manageTeamDynamicsCore
            (manageTeamDynamicsCore team { casualty := some 1 }).2
            { casualty := some 1 }).2.casualtyCount = 2) := by
  refine ⟨⟨mtd_casualtyCount team d, mtd_cohesion team d, mtd_morale team d,
          mtd_result_morale team d, mtd_result_casualties team d,
          mtd_result_status team d⟩, ?_⟩
  intro h0
  have hcc1 : (manageTeamDynamicsCore team { casualty := some 1 }).2.casualtyCount = 1 := by
    rw [mtd_casualtyCount]; dsimp only; omega
  have hmo1 : (manageTeamDynamicsCore team { casualty := some 1 }).2.morale =
      max 0 (team.morale - 5) := by
    rw [mtd_morale]; dsimp only; rw [h0]; split_ifs <;> omega
  have hcc2 : (manageTeamDynamicsCore
      (manageTeamDynamicsCore team { casualty := some 1 }).2
      { casualty := some 1 }).2.casualtyCount = 2 := by
    rw [mtd_casualtyCount, hcc1]; dsimp only; omega
  have hmo2 : (manageTeamDynamicsCore
      (manageTeamDynamicsCore team { casualty := some 1 }).2
      { casualty := some 1 }).2.morale =
      max 0 (max 0 (team.morale - 5) - 10) := by
    rw [mtd_morale]; dsimp only; rw [hcc1, hmo1]; split_ifs <;> omega
  exact ⟨hmo1, hcc1, hmo2, hcc2⟩

/-- Witness for C7's scenario conjunct at a concrete team. -/
theorem manageTeamDynamics_penalty_and_status_witness :
    (manageTeamDynamicsCore
        { id := "TEAM-1", name := "Unnamed Team", objective := "", morale := 75,
          cohesion := 80, casualtyCount := 0, status := "active", tactics := "adaptive" }
        { casualty := some 1 }).2.morale = max 0 (75 - 5) ∧
      (manageTeamDynamicsCore
          (manageTeamDynamicsCore
            { id := "TEAM-1", name := "Unnamed Team", objective := "", morale := 75,
              cohesion := 80, casualtyCount := 0, status := "active", tactics := "adaptive" }
            { casualty := some 1 }).2
          { casualty := some 1 }).2.morale = max 0 (max 0 (75 - 5) - 10) := by
  obtain ⟨h1, _, h3, _⟩ := (manageTeamDynamics_penalty_and_status
    { id := "TEAM-1", name := "Unnamed Team", objective := "", morale := 75,
      cohesion := 80, casualtyCount := 0, status := "active", tactics := "adaptive" }
    { casualty := some 1 }).2 rfl
  exact ⟨h1, h3⟩

/-! ## C8: casualty count — not monotone as claimed; monotone for non-negative
deltas -/

/-- **C8 counterexample.** A negative `dynamics.casualty` is accepted: from a
fresh team (`casualtyCount = 0`), a casualty delta of `-1` drives the count to
`-1`, which is both below its previous value and negative — the claimed
invariant fails on the code. -/
theorem casualtyCount_decreases_on_negative_delta :
    (manageTeamDynamicsCore
        { id := "TEAM-1", name := "Unnamed Team", objective := "", morale := 75,
          cohesion := 80, casualtyCount := 0, status := "active", tactics := "adaptive" }
        { casualty := some (-1) }).2.casualtyCount = -1 := by decide

/-- **C8 amended.** When every supplied casualty delta is non-negative (the
intended use flagged in the spec's §9 note), `casualtyCount` is monotone
non-decreasing and stays non-negative, both for a single call and along any
sequence of calls. -/
theorem casualtyCount_monotone_of_nonneg (team : Team) (d : Dynamics)
    (hc : 0 ≤ d.casualty.getD 0) :
    (team.casualtyCount ≤ (manageTeamDynamicsCore team d).2.casualtyCount ∧
      (0 ≤ team.casualtyCount → 0 ≤ (manageTeamDynamicsCore team d).2.casualtyCount)) ∧
    ∀ ds : List Dynamics, (∀ d' ∈ ds, 0 ≤ d'.casualty.getD 0) →
      team.casualtyCount ≤
        (ds.foldl (fun tm d' => (manageTeamDynamicsCore tm d').2) team).casualtyCount := by
  have step : ∀ (tm : Team) (d' : Dynamics), 0 ≤ d'.casualty.getD 0 →
      tm.casualtyCount ≤ (manageTeamDynamicsCore tm d').2.casualtyCount := by
    intro tm d' hc'
    rw [mtd_casualtyCount]
    rcases hcas : d'.casualty with _ | cas
    · dsimp only; omega
    · rw [hcas] at hc'
      simp only [Option.getD_some] at hc'
      dsimp only
      split_ifs <;> omega
  refine ⟨⟨step team d hc, fun h0 => le_trans h0 (step team d hc)⟩, ?_⟩
  intro ds
  induction ds generalizing team with
  | nil => intro _; exact le_refl _
  | cons d' rest ih =>
    intro hall
    have h1 := step team d' (hall d' (List.mem_cons_self _ _))
    have h2 := ih (manageTeamDynamicsCore team d').2
      (fun x hx => hall x (List.mem_cons_of_mem _ hx))
    simpa using le_trans h1 h2

/-- Witness for the C8 amended theorem at a concrete team and delta. -/
theorem casualtyCount_monotone_of_nonneg_witness :
    ((0 : Int) ≤
        (manageTeamDynamicsCore
          { id := "TEAM-1", name := "Unnamed Team", objective := "", morale := 75,
            cohesion := 80, casualtyCount := 0, status := "active", tactics := "adaptive" }
          { casualty := some 1 }).2.casualtyCount) :=
  ((casualtyCount_monotone_of_nonneg
      { id := "TEAM-1", name := "Unnamed Team", objective := "", morale := 75,
        cohesion := 80, casualtyCount := 0, status := "active", tactics := "adaptive" }
      { casualty := some 1 } (by decide)).1).2 (by decide)

/-! ## C9: history/breakpoints growth -/

theorem trackerExtends_refl (st : CtxState) : trackerExtends st st :=
  fun _ t ht => ⟨t, ht, ⟨[], by simp⟩, ⟨[], by simp⟩⟩

theorem trackerExtends_trans {s1 s2 s3 : CtxState}
    (h12 : trackerExtends s1 s2) (h23 : trackerExtends s2 s3) :
    trackerExtends s1 s3 := by
  intro aid t ht
  obtain ⟨t2, ht2, ⟨es1, he1⟩, ⟨bs1, hb1⟩⟩ := h12 aid t ht
  obtain ⟨t3, ht3, ⟨es2, he2⟩, ⟨bs2, hb2⟩⟩ := h23 aid t2 ht2
  exact ⟨t3, ht3, ⟨es1 ++ es2, by rw [he2, he1, List.append_assoc]⟩,
         ⟨bs1 ++ bs2, by rw [hb2, hb1, List.append_assoc]⟩⟩

theorem modifySanityCore_breakpoints_extend (t : SanityTracker) (a : Agent) (delta : Int) :
    ∃ bs, (modifySanityCore t a delta).1.breakpoints = t.breakpoints ++ bs := by
  unfold modifySanityCore
  dsimp only
  split_ifs
  · exact ⟨[{ type := "complete_break" }], rfl⟩
  · exact ⟨[{ type := "critical" }], rfl⟩
  · exact ⟨[], (List.append_nil _).symm⟩

theorem modifySanity_extends (st : CtxState) (agentId : String) (delta : Int)
    (st' : CtxState) (tr : SanityTracker)
    (hok : modifySanity st agentId delta = .ok (st', tr)) :
    trackerExtends st st' := by
  unfold modifySanity at hok
  cases hm : mapGet st.sanityTracker agentId with
  | none => rw [hm] at hok; exact Except.noConfusion hok
  | some t =>
    cases ha : mapGet st.agents agentId with
    | none => rw [hm, ha] at hok; exact Except.noConfusion hok
    | some a =>
      rw [hm, ha] at hok
      dsimp only at hok
      rcases hcore : modifySanityCore t a delta with ⟨tr', ag'⟩
      rw [hcore] at hok
      simp only [Except.ok.injEq, Prod.mk.injEq] at hok
      obtain ⟨hst, _⟩ := hok
      subst hst
      intro aid t0 ht0
      by_cases haid : aid = agentId
      · subst haid
        have ht0t : t0 = t := (Option.some.inj (hm.symm.trans ht0)).symm
        subst ht0t
        refine ⟨tr', ?_, ?_, ?_⟩
        · exact mapGet_mapSet_self _ _ _
        · obtain ⟨_, _, hhist, _⟩ := modifySanityCore_props t0 a delta
          rw [hcore] at hhist
          exact ⟨_, hhist⟩
        · obtain ⟨bs, hbs⟩ := modifySanityCore_breakpoints_extend t0 a delta
          rw [hcore] at hbs
          exact ⟨bs, hbs⟩
      · refine ⟨t0, ?_, ⟨[], by simp⟩, ⟨[], by simp⟩⟩
        rw [mapGet_mapSet_ne _ _ _ _ haid]
        exact ht0

theorem applyStatusUpdate_extends (st : CtxState) (agentId : String) (u : StatusUpdate)
    (st' : CtxState) (hok : applyStatusUpdate st agentId u = .ok st') :
    trackerExtends st st' := by
  cases u with
  | sanity delta =>
    simp only [applyStatusUpdate] at hok
    cases hms : modifySanity st agentId delta with
    | error e => rw [hms] at hok; exact Except.noConfusion hok
    | ok p =>
      rw [hms] at hok
      simp only [Except.map, Except.ok.injEq] at hok
      subst hok
      exact modifySanity_extends st agentId delta p.1 p.2 (by rw [hms])
  | status s =>
    simp only [applyStatusUpdate] at hok
    cases ha : mapGet st.agents agentId <;> rw [ha] at hok <;>
      simp only [Except.ok.injEq] at hok <;> subst hok
    · exact trackerExtends_refl _
    · exact fun aid t ht => ⟨t, ht, ⟨[], by simp⟩, ⟨[], by simp⟩⟩
  | stressLevel v =>
    simp only [applyStatusUpdate] at hok
    cases ha : mapGet st.agents agentId <;> rw [ha] at hok <;>
      simp only [Except.ok.injEq] at hok <;> subst hok
    · exact trackerExtends_refl _
    · exact fun aid t ht => ⟨t, ht, ⟨[], by simp⟩, ⟨[], by simp⟩⟩
  | notes s =>
    simp only [applyStatusUpdate] at hok
    cases ha : mapGet st.agents agentId <;> rw [ha] at hok <;>
      simp only [Except.ok.injEq] at hok <;> subst hok
    · exact trackerExtends_refl _
    · exact fun aid t ht => ⟨t, ht, ⟨[], by simp⟩, ⟨[], by simp⟩⟩

theorem foldlM_statusUpdates_extends (upd : List StatusUpdate) (agentId : String) :
    ∀ (st st' : CtxState),
      upd.foldlM (fun s u => applyStatusUpdate s agentId u) st = .ok st' →
      trackerExtends st st' := by
  induction upd with
  | nil =>
    intro st st' hok
    simp only [List.foldlM_nil] at hok
    cases hok
    exact trackerExtends_refl _
  | cons u rest ih =>
    intro st st' hok
    simp only [List.foldlM_cons] at hok
    cases happ : applyStatusUpdate st agentId u with
    | error e => rw [happ] at hok; exact Except.noConfusion hok
    | ok s1 =>
      rw [happ] at hok
      exact trackerExtends_trans (applyStatusUpdate_extends st agentId u s1 happ)
        (ih s1 st' hok)

/-- **C9 counterexample.** Calling `registerAgent` again with an id that is
already registered replaces that agent's tracker with fresh empty lists
(lines 115–120): after one sanity change the history has one entry, after
re-registration it has none — the history list shrank. -/
theorem registerAgent_resets_tracker :
    (mapGet (modifySanityState
        ((registerAgent ctxInit { id := some "A1", sanity := some 70, maxSanity := some 70 }).1)
        "A1" (-10)).sanityTracker "A1").map (fun t => t.history.length) = some 1 ∧
    (mapGet ((registerAgent (modifySanityState
        ((registerAgent ctxInit { id := some "A1", sanity := some 70, maxSanity := some 70 }).1)
        "A1" (-10)) { id := some "A1" }).1).sanityTracker "A1").map
      (fun t => t.history.length) = some 0 := by decide

/-- **C9 amended.** `modifySanity` and `updateAgentStatus` only ever extend
every agent's `history` and `breakpoints` (existing entries stay as a prefix,
nothing is truncated or rewritten), and `registerAgent` leaves every *other*
agent's tracker untouched while giving the registered id a fresh tracker with
empty lists — so the claimed monotonicity holds for every operation except
re-registration of an already-registered id, which resets that one tracker. -/
theorem tracker_lists_grow (st : CtxState) (agentId : String) :
    (∀ (delta : Int) (st' : CtxState) (tr : SanityTracker),
      modifySanity st agentId delta = .ok (st', tr) → trackerExtends st st') ∧
    (∀ (upd : List StatusUpdate) (st' : CtxState),
      updateAgentStatus st agentId upd = .ok st' → trackerExtends st st') ∧
    (∀ a : AgentInput,
      (∀ aid, aid ≠ (registerAgent st a).2.id →
        mapGet ((registerAgent st a).1).sanityTracker aid = mapGet st.sanityTracker aid) ∧
      mapGet ((registerAgent st a).1).sanityTracker (registerAgent st a).2.id =
        some { current := (registerAgent st a).2.sanity,
               max := (registerAgent st a).2.maxSanity,
               history := [], breakpoints := [] }) := by
  refine ⟨fun delta st' tr hok => modifySanity_extends st agentId delta st' tr hok,
          fun upd st' hok => ?_, fun a => ⟨fun aid haid => ?_, ?_⟩⟩
  · unfold updateAgentStatus at hok
    cases ha : mapGet st.agents agentId with
    | none => rw [ha] at hok; exact Except.noConfusion hok
    | some ag =>
      rw [ha] at hok
      exact foldlM_statusUpdates_extends upd agentId st st' hok
  · exact mapGet_mapSet_ne _ _ _ _ haid
  · exact mapGet_mapSet_self _ _ _

/-- Witness for the C9 amended theorem: registering `A1` leaves the tracker
slot of a different id untouched. -/
theorem tracker_lists_grow_witness :
    mapGet ((registerAgent ctxInit { id := some "A1" }).1).sanityTracker "B7" =
      mapGet ctxInit.sanityTracker "B7" :=
  ((tracker_lists_grow ctxInit "A1").2.2 { id := some "A1" }).1 "B7" (by decide)

/-! ## C2: threat-level escalation -/

/-- **C2.** `escalateThreatLevel` is exactly one step up with `CRITICAL`
absorbing: `NORMAL ↦ ELEVATED`, `ELEVATED ↦ CRITICAL`, `CRITICAL ↦ CRITICAL`;
hence three escalations from `NORMAL` reach `CRITICAL`, which one escalation
also fixes.  The last conjunct ties the function to its caller: dispatching
the `ESCALATE` command steps the processor's stored threat level exactly
once. -/
theorem escalateThreatLevel_one_step :
    escalateThreatLevel .NORMAL = .ELEVATED ∧
    escalateThreatLevel .ELEVATED = .CRITICAL ∧
    escalateThreatLevel .CRITICAL = .CRITICAL ∧
    escalateThreatLevel (escalateThreatLevel (escalateThreatLevel .NORMAL)) = .CRITICAL ∧
    escalateThreatLevel (escalateThreatLevel .CRITICAL) = escalateThreatLevel .CRITICAL ∧
    (∀ st : ProcState, (stateAfter "ESCALATE" st).threatLevel =
      escalateThreatLevel st.threatLevel) := by
  refine ⟨rfl, rfl, rfl, rfl, rfl, fun st => ?_⟩
  rfl

/-- Witness for C2's dispatch conjunct at the initial state. -/
theorem escalateThreatLevel_one_step_witness :
    (stateAfter "ESCALATE" initState).threatLevel = escalateThreatLevel initState.threatLevel :=
  escalateThreatLevel_one_step.2.2.2.2.2 initState

/-! ## C3: tokenization -/

theorem takeWhile_append_quote (content after : List Char) (hq : '"' ∉ content) :
    (content ++ '"' :: after).takeWhile (fun ch => ch ≠ '"') = content := by
  induction content with
  | nil => simp
  | cons c cs ih =>
    simp only [List.mem_cons, not_or] at hq
    have hc : (decide ¬(c = '"')) = true :=
      decide_eq_true (fun h => hq.1 h.symm)
    simp only [List.cons_append, List.takeWhile_cons, hc]
    rw [ih hq.2]
    simp

theorem dropWhile_append_quote (content after : List Char) (hq : '"' ∉ content) :
    (content ++ '"' :: after).dropWhile (fun ch => ch ≠ '"') = '"' :: after := by
  induction content with
  | nil => simp
  | cons c cs ih =>
    simp only [List.mem_cons, not_or] at hq
    have hc : (decide ¬(c = '"')) = true :=
      decide_eq_true (fun h => hq.1 h.symm)
    simp only [List.cons_append, List.dropWhile_cons, hc]
    exact ih hq.2

theorem tokenizeCore_at_quote (fuel : Nat) (rest : List Char) :
    tokenizeCore (fuel + 1) ('"' :: rest) =
      (match rest.dropWhile (fun ch => ch ≠ '"') with
       | '"' :: after =>
         (if rest.takeWhile (fun ch => ch ≠ '"') = [] then ['"', '"']
          else rest.takeWhile (fun ch => ch ≠ '"')) :: tokenizeCore fuel after
       | _ => tokenizeCore fuel rest) := by
  rw [tokenizeCore]
  rw [if_neg (by decide : ¬((('"' : Char).isWhitespace) = true))]
  rw [if_pos rfl]

/-- **C3 amended.** Tokenization splits on whitespace; a double-quoted run
with *non-empty* content becomes a single token equal to that content — the
surrounding quotes are stripped, internal whitespace preserved, and (since the
content contains no `"`) no quote character appears in the produced token; the
spec's example tokenizes to exactly its four tokens.  The amendment the
counterexample forces: an **empty** quoted run `""` produces the literal
two-character token `""` (quotes kept), because the regex loop pushes
`match[1] || match[0]` and the empty capture is falsy. -/
theorem tokenizeInput_quotes :
    tokenizeInput "ENGAGE A1 \"giant squid\" loud" = ["ENGAGE", "A1", "giant squid", "loud"] ∧
    (∀ (content after : List Char) (fuel : Nat), '"' ∉ content → content ≠ [] →
      tokenizeCore (fuel + 1) ('"' :: (content ++ '"' :: after)) =
        content :: tokenizeCore fuel after) ∧
    (∀ (after : List Char) (fuel : Nat),
      tokenizeCore (fuel + 1) ('"' :: '"' :: after) = ['"', '"'] :: tokenizeCore fuel after) ∧
    (∀ (c : Char) (rest : List Char) (fuel : Nat), c.isWhitespace = true →
      tokenizeCore (fuel + 1) (c :: rest) = tokenizeCore fuel rest) := by
  refine ⟨by decide, fun content after fuel hq hne => ?_, fun after fuel => ?_,
          fun c rest fuel hws => ?_⟩
  · rw [tokenizeCore_at_quote, dropWhile_append_quote content after hq,
        takeWhile_append_quote content after hq]
    rw [if_neg hne]
    rfl
  · have h := tokenizeCore_at_quote fuel ('"' :: after)
    rw [h]
    rfl
  · rw [tokenizeCore]
    rw [if_pos hws]

/-- Witness for C3's quoted-run conjunct at the example's own quoted token. -/
theorem tokenizeInput_quotes_witness :
    tokenizeCore (20 + 1)
        ('"' :: ("giant squid".toList ++ '"' :: " loud".toList)) =
      "giant squid".toList :: tokenizeCore 20 " loud".toList :=
  tokenizeInput_quotes.2.1 "giant squid".toList " loud".toList 20
    (by decide) (by decide)

/-- **C3 counterexample.** The claim "for every quoted token the surrounding
quote characters do not appear in the produced token" fails: tokenizing
`say ""` yields the token `""`, which consists of the two quote characters. -/
theorem tokenizeInput_empty_quotes_keep_quotes :
    tokenizeInput "say \"\"" = ["say", "\"\""] ∧
      '"' ∈ ("\"\"" : String).toList := by
  exact ⟨by decide, by decide⟩

/-! ## C4: missing required argument → ERROR, no state mutation -/

theorem dispatch_some (cmd : String) (h : Handler) (hl : lookupCommand cmd = some h)
    (args : List String) (ps : ProcState) :
    dispatch cmd args ps = dispatchOutcome ps cmd args (.ok (h args ps)) := by
  unfold dispatch
  rw [hl]

/-- **C4.** For every command whose handler requires an argument
(`INVESTIGATE`, `RETREAT`, `CONTAIN`, `RESEARCH`, `DEBRIEF`, `ALERT`,
`SANITIZE`, `CONFIG` require their first argument; `ENGAGE` requires its
first two), dispatching with the required argument missing (absent or the
falsy empty string) returns an `ERROR` response and leaves the
investigation/research store (`agentStates`) and the global threat level
unchanged; and no dispatch ever touches the context manager's stores, which
the combined system threads through unmodified. -/
theorem missing_required_arg_no_mutation (ps : ProcState) (ctx : CtxState)
    (args : List String) :
    (∀ cmd ∈ (["INVESTIGATE", "RETREAT", "CONTAIN", "RESEARCH",
               "DEBRIEF", "ALERT", "SANITIZE", "CONFIG"] : List String),
      strFalsy (args.get? 0) = true →
      (dispatch cmd args ps).1.status = "ERROR" ∧
      (dispatch cmd args ps).2.agentStates = ps.agentStates ∧
      (dispatch cmd args ps).2.threatLevel = ps.threatLevel) ∧
    ((strFalsy (args.get? 0) = true ∨ strFalsy (args.get? 1) = true) →
      (dispatch "ENGAGE" args ps).1.status = "ERROR" ∧
      (dispatch "ENGAGE" args ps).2.agentStates = ps.agentStates ∧
      (dispatch "ENGAGE" args ps).2.threatLevel = ps.threatLevel) ∧
    (∀ (input : String) (r : Response) (sys' : ProcState × CtxState),
      processCommandSys input (ps, ctx) = .ok (r, sys') → sys'.2 = ctx) := by
  refine ⟨?_, ?_, ?_⟩
  · intro cmd hmem hfalsy
    fin_cases hmem
    · rw [dispatch_some "INVESTIGATE" handleInvestigate rfl]
      unfold handleInvestigate
      dsimp only
      rw [if_pos hfalsy]
      exact ⟨rfl, rfl, rfl⟩
    · rw [dispatch_some "RETREAT" handleRetreat rfl]
      unfold handleRetreat
      dsimp only
      rw [if_pos hfalsy]
      exact ⟨rfl, rfl, rfl⟩
    · rw [dispatch_some "CONTAIN" handleContain rfl]
      unfold handleContain
      dsimp only
      rw [if_pos hfalsy]
      exact ⟨rfl, rfl, rfl⟩
    · rw [dispatch_some "RESEARCH" handleResearch rfl]
      unfold handleResearch
      dsimp only
      rw [if_pos hfalsy]
      exact ⟨rfl, rfl, rfl⟩
    · rw [dispatch_some "DEBRIEF" handleDebrief rfl]
      unfold handleDebrief
      dsimp only
      rw [if_pos hfalsy]
      exact ⟨rfl, rfl, rfl⟩
    · rw [dispatch_some "ALERT" handleAlert rfl]
      unfold handleAlert
      dsimp only
      rw [if_pos hfalsy]
      exact ⟨rfl, rfl, rfl⟩
    · rw [dispatch_some "SANITIZE" handleSanitize rfl]
      unfold handleSanitize
      dsimp only
      rw [if_pos hfalsy]
      exact ⟨rfl, rfl, rfl⟩
    · rw [dispatch_some "CONFIG" handleConfig rfl]
      unfold handleConfig
      dsimp only
      rw [if_pos hfalsy]
      exact ⟨rfl, rfl, rfl⟩
  · intro hfalsy
    rw [dispatch_some "ENGAGE" handleEngage rfl]
    unfold handleEngage
    dsimp only
    rw [if_pos (by
      rcases hfalsy with h | h
      · rw [Bool.or_eq_true]; exact Or.inl h
      · rw [Bool.or_eq_true]; exact Or.inr h)]
    exact ⟨rfl, rfl, rfl⟩
  · intro input r sys' h
    unfold processCommandSys at h
    cases hp : processCommand input ps with
    | error e => rw [hp] at h; exact Except.noConfusion h
    | ok p =>
      rw [hp] at h
      simp only [Except.map, Except.ok.injEq, Prod.mk.injEq] at h
      obtain ⟨-, h2⟩ := h
      rw [← h2]

/-- Witness for C4: a bare `INVESTIGATE` (no argument) against the fresh
system errors and mutates nothing. -/
theorem missing_required_arg_no_mutation_witness :
    (dispatch "INVESTIGATE" [] initState).1.status = "ERROR" ∧
      (dispatch "INVESTIGATE" [] initState).2.agentStates = initState.agentStates ∧
      (dispatch "INVESTIGATE" [] initState).2.threatLevel = initState.threatLevel :=
  (missing_required_arg_no_mutation initState ctxInit []).1 "INVESTIGATE"
    (by simp) (by decide)

/-! ## C5: the audit log -/

set_option maxRecDepth 16384 in
/-- **C5.** Dispatch appends exactly one entry
`{timestamp, command, args, status}` to the action log whenever the handler
returns normally (the log becomes the last 100 of the old log plus the new
entry — oldest evicted first), keeps the log at ≤ 100 entries, appends
nothing on the exception path (the catch bypasses `logAction`), and after 105
successfully completed `REPORT` commands from a fresh processor the log holds
exactly the most recent 100 entries (timestamps 5–104). -/
theorem audit_log_ring (st : ProcState) (cmd : String) (args : List String)
    (r : Response) (st' : ProcState) (msg : String) (stT : ProcState) :
    ((dispatchOutcome st cmd args (.ok (r, st'))).2.actionLog =
      (let l := st'.actionLog ++
        [{ timestamp := st'.now, command := cmd, args := args, status := r.status }]
       l.drop (l.length - 100))) ∧
    (st'.actionLog.length ≤ 100 →
      (dispatchOutcome st cmd args (.ok (r, st'))).2.actionLog.length ≤ 100) ∧
    ((dispatchOutcome st cmd args (.error (msg, stT))).2.actionLog = stT.actionLog) ∧
    (run105.actionLog = ((List.range 105).map
        (fun i => { timestamp := i, command := "REPORT", args := [],
                    status := "SUCCESS" } : Nat → LogEntry)).drop 5) := by
  refine ⟨?_, ?_, rfl, ?_⟩
  · unfold dispatchOutcome logAction
    dsimp only
    split_ifs with h
    · rfl
    · rw [Nat.sub_eq_zero_of_le (by omega), List.drop_zero]
  · intro hlen
    unfold dispatchOutcome logAction
    dsimp only
    split_ifs with h
    · rw [List.length_drop]
      simp only [List.length_append, List.length_cons, List.length_nil] at h ⊢
      omega
    · simp only [List.length_append, List.length_cons, List.length_nil] at h ⊢
      omega
  · decide

/-- Witness for C5's bound conjunct at a concrete dispatch. -/
theorem audit_log_ring_witness :
    (dispatchOutcome initState "REPORT" []
        (.ok (formatResponse 0 "SUCCESS" "Report generated" none,
              initState))).2.actionLog.length ≤ 100 :=
  (audit_log_ring initState "REPORT" []
      (formatResponse 0 "SUCCESS" "Report generated" none) initState
      "m" initState).2.1 (by decide)

/-! ## C6: the response envelope -/

theorem handler_status (cmd : String) (h : Handler) (hl : lookupCommand cmd = some h)
    (args : List String) (st : ProcState) :
    (h args st).1.status = "SUCCESS" ∨ (h args st).1.status = "ERROR" := by
  unfold lookupCommand at hl
  by_cases hc0 : cmd = "INVESTIGATE"
  · rw [if_pos hc0] at hl
    injection hl with hl'
    subst hl'
    unfold handleInvestigate
    dsimp only
    split_ifs <;> first | exact Or.inl rfl | exact Or.inr rfl
  · rw [if_neg hc0] at hl
    by_cases hc1 : cmd = "ENGAGE"
    · rw [if_pos hc1] at hl
      injection hl with hl'
      subst hl'
      unfold handleEngage
      dsimp only
      split_ifs <;> first | exact Or.inl rfl | exact Or.inr rfl
    · rw [if_neg hc1] at hl
      by_cases hc2 : cmd = "RETREAT"
      · rw [if_pos hc2] at hl
        injection hl with hl'
        subst hl'
        unfold handleRetreat
        dsimp only
        split_ifs <;> first | exact Or.inl rfl | exact Or.inr rfl
      · rw [if_neg hc2] at hl
        by_cases hc3 : cmd = "CONTAIN"
        · rw [if_pos hc3] at hl
          injection hl with hl'
          subst hl'
          unfold handleContain
          dsimp only
          split_ifs <;> first | exact Or.inl rfl | exact Or.inr rfl
        · rw [if_neg hc3] at hl
          by_cases hc4 : cmd = "RESEARCH"
          · rw [if_pos hc4] at hl
            injection hl with hl'
            subst hl'
            unfold handleResearch
            dsimp only
            split_ifs <;> first | exact Or.inl rfl | exact Or.inr rfl
          · rw [if_neg hc4] at hl
            by_cases hc5 : cmd = "STATUS"
            · rw [if_pos hc5] at hl
              injection hl with hl'
              subst hl'
              exact Or.inl rfl
            · rw [if_neg hc5] at hl
              by_cases hc6 : cmd = "DEBRIEF"
              · rw [if_pos hc6] at hl
                injection hl with hl'
                subst hl'
                unfold handleDebrief
                dsimp only
                split_ifs <;> first | exact Or.inl rfl | exact Or.inr rfl
              · rw [if_neg hc6] at hl
                by_cases hc7 : cmd = "REPORT"
                · rw [if_pos hc7] at hl
                  injection hl with hl'
                  subst hl'
                  exact Or.inl rfl
                · rw [if_neg hc7] at hl
                  by_cases hc8 : cmd = "ALERT"
                  · rw [if_pos hc8] at hl
                    injection hl with hl'
                    subst hl'
                    unfold handleAlert
                    dsimp only
                    split_ifs <;> first | exact Or.inl rfl | exact Or.inr rfl
                  · rw [if_neg hc8] at hl
                    by_cases hc9 : cmd = "ESCALATE"
                    · rw [if_pos hc9] at hl
                      injection hl with hl'
                      subst hl'
                      exact Or.inl rfl
                    · rw [if_neg hc9] at hl
                      by_cases hc10 : cmd = "SANITIZE"
                      · rw [if_pos hc10] at hl
                        injection hl with hl'
                        subst hl'
                        unfold handleSanitize
                        dsimp only
                        split_ifs <;> first | exact Or.inl rfl | exact Or.inr rfl
                      · rw [if_neg hc10] at hl
                        by_cases hc11 : cmd = "HELP"
                        · rw [if_pos hc11] at hl
                          injection hl with hl'
                          subst hl'
                          exact Or.inl rfl
                        · rw [if_neg hc11] at hl
                          by_cases hc12 : cmd = "CONFIG"
                          · rw [if_pos hc12] at hl
                            injection hl with hl'
                            subst hl'
                            unfold handleConfig
                            dsimp only
                            split_ifs <;> first | exact Or.inl rfl | exact Or.inr rfl
                          · rw [if_neg hc12] at hl
                            exact Option.noConfusion hl

/-- **C6 counterexample.** On the input consisting of a lone double quote, the
trimmed input is non-empty but the token list is empty, so line 66 evaluates
`tokens[0].toUpperCase()` on `undefined` outside the `try` block: the
TypeError escapes `processCommand` — no response envelope is returned. -/
theorem processCommand_crashes_on_lone_quote :
    processCommand "\"" initState =
      .error "TypeError: Cannot read properties of undefined" := by rfl

/-- **C6 amended.** For every input that yields at least one token (or is
empty after trimming — every input except those trimming to a lone `"`),
`processCommand` returns a response envelope whose status is `SUCCESS` or
`ERROR` (message, data and timestamp fields are part of the envelope type);
empty input yields `ERROR "No command provided"`; an unregistered command
name yields `ERROR "Unknown command: <name>"`; and a handler that raises is
converted at the dispatch boundary to
`ERROR "Command execution failed: <reason>"`. -/
theorem processCommand_total_envelope :
    (∀ (input : String) (st : ProcState) (r : Response) (st' : ProcState),
      processCommand input st = .ok (r, st') →
      r.status = "SUCCESS" ∨ r.status = "ERROR") ∧
    (∀ (input : String) (st : ProcState), jsTrim input = "" →
      processCommand input st =
        .ok (formatResponse st.now "ERROR" "No command provided" none, st)) ∧
    (∀ (input : String) (st : ProcState) (t0 : String) (ts : List String),
      jsTrim input ≠ "" → tokenizeInput (jsTrim input) = t0 :: ts →
      lookupCommand (jsToUpper t0) = none →
      processCommand input st =
        .ok (formatResponse st.now "ERROR" ("Unknown command: " ++ jsToUpper t0) none, st)) ∧
    (∀ (input : String) (st : ProcState),
      (jsTrim input = "" ∨ tokenizeInput (jsTrim input) ≠ []) →
      ∃ r st', processCommand input st = .ok (r, st')) ∧
    (∀ (st : ProcState) (cmd : String) (args : List String) (msg : String) (stT : ProcState),
      (dispatchOutcome st cmd args (.error (msg, stT))).1 =
        formatResponse st.now "ERROR" ("Command execution failed: " ++ msg) none) := by
  refine ⟨?_, ?_, ?_, ?_, fun st cmd args msg stT => rfl⟩
  · intro input st r st' h
    unfold processCommand at h
    dsimp only at h
    by_cases he : jsTrim input = ""
    · rw [if_pos he] at h
      simp only [Except.ok.injEq, Prod.mk.injEq] at h
      obtain ⟨h1, -⟩ := h
      right
      rw [← h1]
      rfl
    · rw [if_neg he] at h
      cases htok : tokenizeInput (jsTrim input) with
      | nil => rw [htok] at h; exact Except.noConfusion h
      | cons t0 ts =>
        rw [htok] at h
        simp only [Except.ok.injEq] at h
        cases hlk : lookupCommand (jsToUpper t0) with
        | none =>
          unfold dispatch at h
          rw [hlk] at h
          simp only [Prod.mk.injEq] at h
          obtain ⟨h1, -⟩ := h
          right
          rw [← h1]
          rfl
        | some hd =>
          unfold dispatch at h
          rw [hlk] at h
          have h1 : (dispatchOutcome st (jsToUpper t0) ts (Except.ok (hd ts st))).1 = r :=
            congrArg Prod.fst h
          have h2 : (dispatchOutcome st (jsToUpper t0) ts (Except.ok (hd ts st))).1 =
              (hd ts st).1 := rfl
          rw [← h1, h2]
          exact handler_status _ hd hlk ts st
  · intro input st he
    unfold processCommand
    dsimp only
    rw [he]
    rfl
  · intro input st t0 ts hne htok hlk
    unfold processCommand
    dsimp only
    rw [if_neg hne, htok]
    dsimp only
    unfold dispatch
    rw [hlk]
  · intro input st hcase
    cases hp : processCommand input st with
    | ok p => exact ⟨p.1, p.2, show Except.ok p = Except.ok (p.1, p.2) from rfl⟩
    | error e =>
      exfalso
      unfold processCommand at hp
      dsimp only at hp
      by_cases he : jsTrim input = ""
      · rw [if_pos he] at hp
        exact Except.noConfusion hp
      · rw [if_neg he] at hp
        rcases hcase with he' | hne
        · exact he he'
        · cases htok : tokenizeInput (jsTrim input) with
          | nil => exact hne htok
          | cons t0 ts => rw [htok] at hp; exact Except.noConfusion hp

/-- Witness for C6's empty-input conjunct. -/
theorem processCommand_total_envelope_witness :
    processCommand "" initState =
      .ok (formatResponse initState.now "ERROR" "No command provided" none, initState) :=
  processCommand_total_envelope.2.1 "" initState (by decide)

end DeltaGreen
